import Mathlib

/-!
# AckerJS — shallow embedding and verification

A shallow embedding of the AckerJS utility library (Format, HTTP and DOM
component modules) together with proofs about the claims of its
specification.  Pure string/number functions are translated directly from
the TypeScript source; platform calls (the Fetch API, `Intl`, the `URL`
constructor, the custom-element lifecycle) enter the model as explicit
outcome parameters, and console logging is modelled as an explicit event
trace.
-/

namespace AckerJS

/-- An observable side effect: an invocation of the platform fetch function,
or a line written to the console via `console.error` / `console.warn`. -/
inductive Event where
  | fetchCall (url : String)
  | log (message : String)
deriving DecidableEq, Repr

/-- Whether an event is an invocation of the platform fetch function. -/
def Event.isFetchCall : Event → Bool
  | .fetchCall _ => true
  | .log _ => false

/-- The number of platform fetch invocations in an event trace. -/
def countFetchCalls (trace : List Event) : ℕ :=
  (trace.filter Event.isFetchCall).length

namespace Format

/-- The character class `\w` of JavaScript regular expressions:
ASCII letters, digits and underscore. -/
def isWordChar (c : Char) : Bool :=
  (('a' ≤ c && c ≤ 'z') || ('A' ≤ c && c ≤ 'Z') || ('0' ≤ c && c ≤ '9') || c = '_')

/-- The character class `\s` of JavaScript regular expressions (also the set
stripped by `String.prototype.trim`): tab through carriage return, space,
no-break space, the Unicode space separators, line/paragraph separators,
narrow no-break space, medium mathematical space, ideographic space and BOM. -/
def isJsSpace (c : Char) : Bool :=
  ([9, 10, 11, 12, 13, 32, 160, 5760, 8232, 8233, 8239, 8287, 12288, 65279].contains c.toNat)
  || (8192 ≤ c.toNat && c.toNat ≤ 8202)

/-- Embedding of `String.prototype.trim`, on the character list: drop JS whitespace from
both ends. -/
def jsTrim (l : List Char) : List Char :=
  ((l.dropWhile isJsSpace).reverse.dropWhile isJsSpace).reverse

/-- Embedding of `String.prototype.toLowerCase`, modelled on the ASCII range (the inputs
of the evaluated claims); `Char.toLower` lowers exactly the letters A–Z. -/
def jsToLower (l : List Char) : List Char :=
  l.map Char.toLower

/-- The replacement `.replace(/[^\w\s-]/g, '')` of `slugify`: keep only word
characters, JS whitespace and hyphens. -/
def keepWordSpaceDash (l : List Char) : List Char :=
  l.filter (fun c => isWordChar c || isJsSpace c || c = '-')

/-- A character matched by the class `[\s_-]` of `slugify`. -/
def isSpaceUnderscoreDash (c : Char) : Bool :=
  isJsSpace c || c = '_' || c = '-'

/-- The replacement `.replace(/[\s_-]+/g, '-')` of `slugify`: every maximal
run of whitespace, underscores and hyphens becomes a single hyphen.  The
Boolean argument records whether the previous character belonged to the
current run. -/
def collapseRuns : Bool → List Char → List Char
  | _, [] => []
  | inRun, c :: rest =>
    if isSpaceUnderscoreDash c then
      if inRun then collapseRuns true rest
      else '-' :: collapseRuns true rest
    else c :: collapseRuns false rest

/-- The replacement `.replace(/^-+|-+$/g, '')` of `slugify`: strip leading
and trailing hyphens. -/
def stripEdgeDashes (l : List Char) : List Char :=
  ((l.dropWhile (fun c => c = '-')).reverse.dropWhile (fun c => c = '-')).reverse

/-- Embedding of `slugify` (src/format/index.ts): lower-case, trim, drop characters that
are not word characters, whitespace or hyphens, collapse whitespace,
underscore and hyphen runs to single hyphens, and strip edge hyphens. -/
def slugify (str : String) : String :=
  ⟨stripEdgeDashes (collapseRuns false (keepWordSpaceDash (jsTrim (jsToLower str.data))))⟩

/-- The per-character image of the global replace in `escapeHTML`
(`replace` over the class of the five HTML special characters with
`htmlEscapes[char]`): the five special characters map to their entities,
every other character to itself
(`Char.ofNat 34` is the double quote, `Char.ofNat 39` the apostrophe). -/
def escAux (c : Char) : List Char :=
  if c = '&' then ['&', 'a', 'm', 'p', ';']
  else if c = '<' then ['&', 'l', 't', ';']
  else if c = '>' then ['&', 'g', 't', ';']
  else if c = Char.ofNat 34 then ['&', 'q', 'u', 'o', 't', ';']
  else if c = Char.ofNat 39 then ['&', '#', '3', '9', ';']
  else [c]

/-- Embedding of `escapeHTML` on the character list: the global single-character-class
replace is the concatenation of the per-character images. -/
def escapeList (l : List Char) : List Char :=
  l.flatMap escAux

/-- Embedding of `escapeHTML` (src/format/index.ts). -/
def escapeHTML (str : String) : String :=
  ⟨escapeList str.data⟩

/-- Entity dispatch of the `unescapeHTML` pattern `&(?:amp|lt|gt|quot|#39);`:
given the characters following an ampersand, recognise one of the five
entity bodies (no one of which is a prefix of another, so the match is
unambiguous) and return the replacement character and the remaining
input. -/
def matchEntity : List Char → Option (Char × List Char)
  | 'a' :: 'm' :: 'p' :: ';' :: r => some ('&', r)
  | 'l' :: 't' :: ';' :: r => some ('<', r)
  | 'g' :: 't' :: ';' :: r => some ('>', r)
  | 'q' :: 'u' :: 'o' :: 't' :: ';' :: r => some (Char.ofNat 34, r)
  | '#' :: '3' :: '9' :: ';' :: r => some (Char.ofNat 39, r)
  | _ => none

/-- A recognised entity body consumes at least four characters. -/
theorem matchEntity_length {l : List Char} {d : Char} {r : List Char}
    (h : matchEntity l = some (d, r)) : r.length < l.length := by
  unfold matchEntity at h
  split at h <;> simp_all <;> omega

/-- The global replace of `unescapeHTML` over `&(?:amp|lt|gt|quot|#39);`
on the character list: scan left to right; an ampersand starting one of
the five entities is replaced together with the entity body by the
character of the entity, any other character is copied. -/
def unescapeList (l : List Char) : List Char :=
  match l with
  | [] => []
  | c :: rest =>
    if c = '&' then
      match h : matchEntity rest with
      | some (d, r) => d :: unescapeList r
      | none => c :: unescapeList rest
    else c :: unescapeList rest
termination_by l.length
decreasing_by
  · exact Nat.lt_trans (matchEntity_length h) (by simp)
  · simp
  · simp

/-- Embedding of `unescapeHTML` (src/format/index.ts). -/
def unescapeHTML (str : String) : String :=
  ⟨unescapeList str.data⟩

/-- Strip common factors of ten from the fraction `n / 10 ^ e`
(`stripTenFactors n e = (m, k)` with `n / 10 ^ e = m / 10 ^ k` and either
`k = 0` or `m` not divisible by ten). -/
def stripTenFactors : ℕ → ℕ → ℕ × ℕ
  | n, 0 => (n, 0)
  | n, e + 1 => if n % 10 = 0 then stripTenFactors (n / 10) e else (n, e + 1)

/-- Left-pad a decimal digit string with zeros to width `k`. -/
def padZeros (s : String) (k : ℕ) : String :=
  ⟨List.replicate (k - s.length) '0'⟩ ++ s

/-- The JavaScript number-to-string conversion of the value `n / 10 ^ e`
(a nonnegative number with at most `e` decimal digits): the shortest decimal
form, i.e. trailing fractional zeros dropped and the point dropped when the
fraction vanishes.  This is exactly what interpolating
`parseFloat(x.toFixed(e))` into a template literal prints, since JavaScript
prints a double in its shortest round-tripping decimal form. -/
def decimalRepr (n : ℕ) (e : ℕ) : String :=
  let p := stripTenFactors n e
  if p.2 = 0 then toString p.1
  else toString (p.1 / 10 ^ p.2) ++ "." ++ padZeros (toString (p.1 % 10 ^ p.2)) p.2

/-- Embedding of `⌊num / den + 1/2⌋` on naturals: the rounding performed by
`Number.prototype.toFixed` (half away from zero; the arguments here are
nonnegative and, at the inputs evaluated below, exact in double
precision). -/
def roundHalfUp (num den : ℕ) : ℕ :=
  (2 * num + den) / (2 * den)

/-- Fuel-driven integer logarithm base 1024: `intLog1024Aux fuel n` counts
how often `n` can be divided by 1024 before falling below it. -/
def intLog1024Aux : ℕ → ℕ → ℕ
  | 0, _ => 0
  | fuel + 1, n => if n < 1024 then 0 else intLog1024Aux fuel (n / 1024) + 1

/-- Embedding of `Math.floor(Math.log(bytes) / Math.log(1024))` for a positive natural
number of bytes: the integer logarithm base 1024 (the double-precision
quotient is exact at the inputs evaluated below).  `n` itself is ample
fuel, since the value is at most `log₂ n`. -/
def intLog1024 (n : ℕ) : ℕ :=
  intLog1024Aux n n

/-- The unit names of `formatBytes`. -/
def sizes : List String :=
  ["Bytes", "KB", "MB", "GB", "TB", "PB"]

/-- Embedding of `formatBytes` (src/format/index.ts), for a natural number of bytes:

* `i = Math.floor(Math.log(bytes) / Math.log(1024))` is the integer
  logarithm `intLog1024 bytes`;
* `parseFloat((bytes / Math.pow(k, i)).toFixed(decimals))` rounds
  `bytes / 1024 ^ i` to `decimals` decimal places — the numerator of the
  result over `10 ^ decimals` is `roundHalfUp (bytes * 10 ^ decimals)
  (1024 ^ i)` — and re-parses it, so interpolating it prints the shortest
  decimal form `decimalRepr`;
* `sizes[i]` is `undefined` past the end of the list, which a template
  literal prints as `"undefined"`. -/
def formatBytes (bytes : ℕ) (decimals : ℕ := 2) : String :=
  if bytes = 0 then "0 Bytes"
  else
    let k := 1024
    let i := intLog1024 bytes
    decimalRepr (roundHalfUp (bytes * 10 ^ decimals) (k ^ i)) decimals
      ++ " " ++ (sizes.getD i "undefined")

/-- A `Date` value, abstracted to what the format wrappers observe of it:
its default string representation `Date.prototype.toString`. -/
structure Date where
  toStringJS : String
deriving DecidableEq, Repr

/-- The outcome of a platform call that returns a string or throws an
exception carrying a message. -/
abbrev PlatformCall := Except String String

/-- Embedding of `formatDate` (src/format/index.ts): return the result of the platform
call `date.toLocaleDateString(locale)`; if it throws, log a namespaced
diagnostic and return `date.toString()`.  The outcome of the platform call
is the explicit argument `toLocaleDateString`. -/
def formatDate (date : Date) (toLocaleDateString : PlatformCall) :
    String × List Event :=
  match toLocaleDateString with
  | .ok s => (s, [])
  | .error e => (date.toStringJS, [.log ("[AckerJS Format] Error formatting date: " ++ e)])

/-- Embedding of `formatDateTime` (src/format/index.ts): as `formatDate`, for the
platform call `date.toLocaleString(locale)`. -/
def formatDateTime (date : Date) (toLocaleString : PlatformCall) :
    String × List Event :=
  match toLocaleString with
  | .ok s => (s, [])
  | .error e =>
      (date.toStringJS, [.log ("[AckerJS Format] Error formatting date time: " ++ e)])

/-- Embedding of `formatTime` (src/format/index.ts): as `formatDate`, for the platform
call `date.toLocaleTimeString(locale)`. -/
def formatTime (date : Date) (toLocaleTimeString : PlatformCall) :
    String × List Event :=
  match toLocaleTimeString with
  | .ok s => (s, [])
  | .error e => (date.toStringJS, [.log ("[AckerJS Format] Error formatting time: " ++ e)])

end Format

/-- Insert-or-replace on an association list modelling a JavaScript object
keyed by strings: an existing key keeps its position and gets the new value,
a new key is appended. -/
def setKey : List (String × String) → String → String → List (String × String)
  | [], k, v => [(k, v)]
  | (k0, v0) :: rest, k, v =>
      if k0 = k then (k0, v) :: rest else (k0, v0) :: setKey rest k v

/-- Build a JavaScript object from a key/value sequence by successive
assignment (`obj[key] = value`): the later value for a duplicate key wins. -/
def objFromPairs (l : List (String × String)) : List (String × String) :=
  l.foldl (fun acc kv => setKey acc kv.1 kv.2) []

/-- The object spread `{...base, ...updates}` on string-valued objects. -/
def overrideMerge (base updates : List (String × String)) : List (String × String) :=
  updates.foldl (fun acc kv => setKey acc kv.1 kv.2) base

namespace HTTP

/-- Embedding of `String.prototype.includes` on character lists: some suffix of the
haystack starts with the needle. -/
def hasSubList (needle : List Char) : List Char → Bool
  | [] => needle.isEmpty
  | c :: rest => needle.isPrefixOf (c :: rest) || hasSubList needle rest

/-- The `HTTPError` class (src/http/index.ts): an `Error` carrying the
message, the numeric status code, the status text and the request URL, with
`name` set to `"HTTPError"` by the constructor. -/
structure HTTPError where
  message : String
  status : ℕ
  statusText : String
  url : String
  name : String
deriving DecidableEq, Repr

/-- The `HTTPError` constructor. -/
def HTTPError.make (message : String) (status : ℕ) (statusText url : String) : HTTPError :=
  ⟨message, status, statusText, url, "HTTPError"⟩

/-- The fields `handleResponse` reads off a parsed JSON error body:
`errorData.message` and `errorData.error` (absent fields are `none`). -/
structure ErrorBody where
  message : Option String
  error : Option String
deriving DecidableEq, Repr

/-- JavaScript `a || b` for a string-or-undefined left operand: `undefined`
and the empty string are falsy. -/
def jsOrStr (a : Option String) (b : String) : String :=
  match a with
  | some s => if s = "" then b else s
  | none => b

/-- A fetch `Response`, abstracted to what the wrappers observe of it.
`contentType` is the content-type response header (`none` models
`null`); the three `Except` fields are the outcomes of the body reads
`response.json()` (as an error payload), `response.text()`, and
`response.json()` (as the success payload of type `α`), each of which
either yields a value or throws with a message. -/
structure Response (α : Type) where
  ok : Bool
  status : ℕ
  statusText : String
  url : String
  contentType : Option String
  errorJson : Except String ErrorBody
  errorText : Except String String
  bodyJson : Except String α

/-- The error-message computation in the non-ok branch of `handleResponse`
(src/http/index.ts): the `message` or `error` field of the JSON body when the
content type includes `application/json`, the non-empty body text
otherwise, and the default `HTTP {status}: {statusText}` when the body
read throws (the inner `catch`) or yields nothing usable. -/
def responseErrorMessage {α : Type} (response : Response α) : String :=
  let defaultMsg := "HTTP " ++ toString response.status ++ ": " ++ response.statusText
  match response.contentType with
  | some ct =>
      if hasSubList "application/json".data ct.data then
        match response.errorJson with
        | .ok errorData => jsOrStr errorData.message (jsOrStr errorData.error defaultMsg)
        | .error _ => defaultMsg
      else
        match response.errorText with
        | .ok t => if t = "" then defaultMsg else t
        | .error _ => defaultMsg
  | none =>
      match response.errorText with
      | .ok t => if t = "" then defaultMsg else t
      | .error _ => defaultMsg

/-- Embedding of `handleResponse` (src/http/index.ts): on a non-ok response, throw an
`HTTPError` carrying the computed error message together with the
status, status text and URL of the response.  On an ok response, do
nothing. -/
def handleResponse {α : Type} (response : Response α) : Except HTTPError Unit :=
  if !response.ok then
    .error
      (HTTPError.make (responseErrorMessage response) response.status response.statusText
        response.url)
  else
    .ok ()

/-- The platform behaviour for one invocation of `fetch`: it either
resolves with a response or rejects with an error carrying a message. -/
inductive FetchOutcome (α : Type) where
  | success (response : Response α)
  | failure (message : String)

/-- The two classes of error `fetchJSON` can surface: an `HTTPError`, or a
plain `Error` with a message (`new Error(...)`). -/
inductive FetchErr where
  | http (e : HTTPError)
  | plain (message : String)
deriving DecidableEq, Repr

/-- The `RequestInit` options the wrappers manipulate: method, body and
headers (other fields are passed through untouched and are not modelled). -/
structure RequestOptions where
  method : Option String := none
  body : Option String := none
  headers : List (String × String) := []
deriving DecidableEq, Repr

/-- The option object `fetchJSON` passes to `fetch`: the caller options
with the JSON content type merged under their headers. -/
def fetchJSONOptions (options : RequestOptions) : RequestOptions :=
  { options with
    headers := overrideMerge [("Content-Type", "application/json")] options.headers }

/-- Embedding of `fetchJSON` (src/http/index.ts): invoke the platform fetch once (the
event trace records the invocation), run `handleResponse`, return
`undefined` (here `none`) on a 204, otherwise parse the JSON body.  Any
`HTTPError` thrown inside the `try` is re-thrown unchanged; any other
exception — a rejection of `fetch` itself or a failing body parse — is
logged with the namespaced prefix and re-thrown as a plain `Error` whose
message augments the original one with the request URL.  The platform
behaviour is the explicit argument `env`, a function from the options of
the one fetch invocation to its outcome. -/
def fetchJSON {α : Type} (url : String) (options : RequestOptions)
    (env : RequestOptions → FetchOutcome α) : Except FetchErr (Option α) × List Event :=
  match env (fetchJSONOptions options) with
  | .failure msg =>
      (.error (.plain ("Failed to fetch from " ++ url ++ ": " ++ msg)),
       [.fetchCall url, .log ("[AckerJS HTTP] Fetch error: " ++ msg)])
  | .success response =>
      match handleResponse response with
      | .error e => (.error (.http e), [.fetchCall url])
      | .ok () =>
          if response.status = 204 then (.ok none, [.fetchCall url])
          else
            match response.bodyJson with
            | .ok a => (.ok (some a), [.fetchCall url])
            | .error msg =>
                (.error (.plain ("Failed to fetch from " ++ url ++ ": " ++ msg)),
                 [.fetchCall url, .log ("[AckerJS HTTP] Fetch error: " ++ msg)])

/-- Embedding of `postJSON` (src/http/index.ts): `fetchJSON` with method `POST`, the
JSON-serialised data as body (`data` stands for the string
`JSON.stringify(data)`), and the JSON content type merged into the
headers. -/
def postJSON {α : Type} (url : String) (data : String) (options : RequestOptions)
    (env : RequestOptions → FetchOutcome α) : Except FetchErr (Option α) × List Event :=
  fetchJSON url
    { options with
      method := some "POST", body := some data,
      headers := overrideMerge [("Content-Type", "application/json")] options.headers }
    env

/-- Embedding of `putJSON` (src/http/index.ts): as `postJSON` with method `PUT`. -/
def putJSON {α : Type} (url : String) (data : String) (options : RequestOptions)
    (env : RequestOptions → FetchOutcome α) : Except FetchErr (Option α) × List Event :=
  fetchJSON url
    { options with
      method := some "PUT", body := some data,
      headers := overrideMerge [("Content-Type", "application/json")] options.headers }
    env

/-- Embedding of `patchJSON` (src/http/index.ts): as `postJSON` with method `PATCH`. -/
def patchJSON {α : Type} (url : String) (data : String) (options : RequestOptions)
    (env : RequestOptions → FetchOutcome α) : Except FetchErr (Option α) × List Event :=
  fetchJSON url
    { options with
      method := some "PATCH", body := some data,
      headers := overrideMerge [("Content-Type", "application/json")] options.headers }
    env

/-- Embedding of `deleteJSON` (src/http/index.ts): `fetchJSON` with method `DELETE`. -/
def deleteJSON {α : Type} (url : String) (options : RequestOptions)
    (env : RequestOptions → FetchOutcome α) : Except FetchErr (Option α) × List Event :=
  fetchJSON url { options with method := some "DELETE" } env

/-- Embedding of `get` (src/http/index.ts): `fetchJSON` with method `GET`. -/
def get {α : Type} (url : String) (options : RequestOptions)
    (env : RequestOptions → FetchOutcome α) : Except FetchErr (Option α) × List Event :=
  fetchJSON url { options with method := some "GET" } env

/-- Embedding of `post` (src/http/index.ts): alias for `postJSON`. -/
def post {α : Type} (url : String) (data : String) (options : RequestOptions)
    (env : RequestOptions → FetchOutcome α) : Except FetchErr (Option α) × List Event :=
  postJSON url data options env

/-- Embedding of `put` (src/http/index.ts): alias for `putJSON`. -/
def put {α : Type} (url : String) (data : String) (options : RequestOptions)
    (env : RequestOptions → FetchOutcome α) : Except FetchErr (Option α) × List Event :=
  putJSON url data options env

/-- Embedding of `patch` (src/http/index.ts): alias for `patchJSON`. -/
def patch {α : Type} (url : String) (data : String) (options : RequestOptions)
    (env : RequestOptions → FetchOutcome α) : Except FetchErr (Option α) × List Event :=
  patchJSON url data options env

/-- Embedding of `del` (src/http/index.ts): alias for `deleteJSON`. -/
def del {α : Type} (url : String) (options : RequestOptions)
    (env : RequestOptions → FetchOutcome α) : Except FetchErr (Option α) × List Event :=
  deleteJSON url options env

/-- A JavaScript value as it can occur in the `params` record of
`buildURL` (`Record<string, any>`): `null`, `undefined`, a string, an
integer number, a Boolean, or an array of such values. -/
inductive JSValue where
  | vNull
  | vUndefined
  | vStr (s : String)
  | vNum (n : Int)
  | vBool (b : Bool)
  | vArr (elems : List JSValue)
deriving Repr

mutual

/-- The JavaScript conversion `String(value)`: `"null"` and `"undefined"`
for the two empty values, the value itself for strings, the decimal form
for (integer) numbers, `"true"`/`"false"` for Booleans, and the
comma-joined element images for arrays. -/
def jsString : JSValue → String
  | .vNull => "null"
  | .vUndefined => "undefined"
  | .vStr s => s
  | .vNum n => toString n
  | .vBool b => if b then "true" else "false"
  | .vArr elems => String.intercalate "," (jsStringElems elems)

/-- Array elements under `Array.prototype.join`: `null` and `undefined`
become the empty string, every other element its `String(...)` image. -/
def jsStringElems : List JSValue → List String
  | [] => []
  | .vNull :: rest => "" :: jsStringElems rest
  | .vUndefined :: rest => "" :: jsStringElems rest
  | v :: rest => jsString v :: jsStringElems rest

end

/-- A parsed `URL` object, abstracted to what `buildURL` manipulates: the
part before the query (scheme, host, path), and the `searchParams` pair
list.  `beforeQuery` stands for the serialisation of everything
`url.toString()` prints before the `?`. -/
structure URLModel where
  beforeQuery : String
  searchParams : List (String × String)
deriving DecidableEq, Repr

/-- Embedding of `url.toString()`: the pre-query part followed by the serialised query
pairs (percent-encoding of `URLSearchParams` is not modelled; the claims
below are settled on the pair list itself). -/
def URLModel.toStringJS (u : URLModel) : String :=
  if u.searchParams.isEmpty then u.beforeQuery
  else
    u.beforeQuery ++ "?"
      ++ String.intercalate "&" (u.searchParams.map (fun kv => kv.1 ++ "=" ++ kv.2))

/-- The parameter loop of `buildURL`
(`Object.entries(params).forEach(...)`), with `acc` the `searchParams`
accumulated so far: for each entry in order, skip `null` and `undefined`
values, append each element of an array value as a separate pair under the
key of the entry, and append every other value as its `String(...)`
image. -/
def appendParams : List (String × JSValue) → List (String × String) → List (String × String)
  | [], acc => acc
  | kv :: rest, acc =>
      appendParams rest
        (match kv.2 with
          | .vNull => acc
          | .vUndefined => acc
          | .vArr elems => acc ++ elems.map (fun v => (kv.1, jsString v))
          | v => acc ++ [(kv.1, jsString v)])

/-- Embedding of `buildURL` (src/http/index.ts): parse the base URL (here received as the
already-parsed `URLModel`, since the `URL` constructor is a platform call)
and append the query parameters to its `searchParams`. -/
def buildURL (baseURL : URLModel) (params : List (String × JSValue)) : URLModel :=
  { baseURL with searchParams := appendParams params baseURL.searchParams }

/-- Spec-side description of the query pairs `buildURL` produces, written
from the words of (amended) claim C10: entries with `null` or `undefined`
values contribute nothing, an array-valued entry contributes one pair per
element under the key of the entry (each element stringified, so `null`
and `undefined` elements appear as `"null"` / `"undefined"`), and every
other entry contributes a single pair with the string form of the
value. -/
def specQueryPairs (params : List (String × JSValue)) : List (String × String) :=
  params.flatMap
    (fun kv =>
      match kv.2 with
      | .vNull => []
      | .vUndefined => []
      | .vArr elems => elems.map (fun v => (kv.1, jsString v))
      | v => [(kv.1, jsString v)])

/-- Embedding of `parseURL` (src/http/index.ts): parse the URL with the platform `URL`
constructor — the explicit argument `urlParse` is its outcome, `none` when
it throws, `some pairs` with the `searchParams` pairs otherwise — and
collect the pairs into an object by assignment.  On an invalid URL, catch
the exception, log a namespaced diagnostic and return the empty object. -/
def parseURL (url : String) (urlParse : Option (List (String × String))) :
    List (String × String) × List Event :=
  match urlParse with
  | some pairs => (objFromPairs pairs, [])
  | none => ([], [.log ("[AckerJS HTTP] Invalid URL for parsing: " ++ url)])

/-- A concrete non-ok response used as witness input. -/
def sampleBadResponse : Response Unit :=
  { ok := false, status := 404, statusText := "Not Found",
    url := "https://api.example.com/users", contentType := none,
    errorJson := .error "no body", errorText := .ok "",
    bodyJson := .error "no body" }

/-- A concrete ok response used as witness input. -/
def sampleOkResponse : Response Unit :=
  { ok := true, status := 200, statusText := "OK",
    url := "https://api.example.com/users",
    contentType := some "application/json; charset=utf-8",
    errorJson := .error "body already consumed",
    errorText := .error "body already consumed",
    bodyJson := .ok () }

end HTTP

namespace DOM

/-- An instance of a custom element defined by the `component` helper
(docs/lib/dom/component.js), abstracted to what the helper manipulates:
its attribute list (name/value pairs, unique by name on a real element)
and its rendered content (the serialisation of its children). -/
structure ComponentInst where
  attrs : List (String × String)
  content : String
deriving DecidableEq, Repr

/-- Embedding of `AckerComponent.getProps`: read every attribute into a props object. -/
def getProps (inst : ComponentInst) : List (String × String) :=
  objFromPairs inst.attrs

/-- Embedding of `AckerComponent.render`: compute the props, invoke the user render
callback on them, clear the current content and install the result (a
returned `HTMLElement` is modelled by its serialisation). -/
def render (renderFn : List (String × String) → String) (inst : ComponentInst) :
    ComponentInst :=
  { inst with content := renderFn (getProps inst) }

/-- Embedding of `AckerComponent.attributeChangedCallback`: invoked by the platform with
the name, old value and new value of the changed attribute (`none` models
`null`); re-renders exactly when the two values differ (`!==`).  The second
component of the result counts the render invocations the callback
performed. -/
def attributeChangedCallback (renderFn : List (String × String) → String)
    (inst : ComponentInst) ( _name : String) (oldValue newValue : Option String) :
    ComponentInst × ℕ :=
  if oldValue ≠ newValue then (render renderFn inst, 1) else (inst, 0)

end DOM

/-! ## Theorems -/

namespace Format

/-- A non-ampersand character at the head of the input is copied by the
unescape scan. -/
theorem unescapeList_cons_of_ne_amp (c : Char) (l : List Char) (h : c ≠ '&') :
    unescapeList (c :: l) = c :: unescapeList l := by
  rw [unescapeList, if_neg h]

/-- The unescape scan undoes the escape image of a single character, no
matter what escaped text follows. -/
theorem unescapeList_escAux (c : Char) (t : List Char) :
    unescapeList (escAux c ++ t) = c :: unescapeList t := by
  by_cases h1 : c = '&'
  · subst h1
    show unescapeList ('&' :: 'a' :: 'm' :: 'p' :: ';' :: t) = _
    rw [unescapeList]
    simp [matchEntity]
  by_cases h2 : c = '<'
  · subst h2
    show unescapeList ('&' :: 'l' :: 't' :: ';' :: t) = _
    rw [unescapeList]
    simp [matchEntity]
  by_cases h3 : c = '>'
  · subst h3
    show unescapeList ('&' :: 'g' :: 't' :: ';' :: t) = _
    rw [unescapeList]
    simp [matchEntity]
  by_cases h4 : c = Char.ofNat 34
  · subst h4
    show unescapeList ('&' :: 'q' :: 'u' :: 'o' :: 't' :: ';' :: t) = _
    rw [unescapeList]
    simp [matchEntity]
  by_cases h5 : c = Char.ofNat 39
  · subst h5
    show unescapeList ('&' :: '#' :: '3' :: '9' :: ';' :: t) = _
    rw [unescapeList]
    simp [matchEntity]
  · have himg : escAux c = [c] := by
      simp [escAux, h1, h2, h3, h4, h5]
    rw [himg]
    exact unescapeList_cons_of_ne_amp c t h1

/-- Unescaping an escaped character list is the identity. -/
theorem unescapeList_escapeList : ∀ l : List Char, unescapeList (escapeList l) = l
  | [] => by
      rw [show escapeList [] = [] from rfl]
      rw [unescapeList]
  | c :: cs => by
      have h : escapeList (c :: cs) = escAux c ++ escapeList cs := by
        simp [escapeList]
      rw [h, unescapeList_escAux, unescapeList_escapeList cs]

/-- C9: for every string `s`, `unescapeHTML (escapeHTML s) = s` — escaping
the five HTML special characters and then unescaping the five entities is
the identity on all strings, including strings that already contain entity
text such as `"&amp;"` (whose ampersand is escaped to `&amp;amp;` and
restored first by the left-to-right scan). -/
theorem unescapeHTML_escapeHTML_roundtrip (s : String) :
    unescapeHTML (escapeHTML s) = s := by
  obtain ⟨d⟩ := s
  show String.mk (unescapeList (escapeList d)) = String.mk d
  rw [unescapeList_escapeList]

/-- C2: `slugify` applied to `"Hello World!"` returns `"hello-world"`. -/
theorem slugify_hello_world : slugify "Hello World!" = "hello-world" := by decide

/-- C1: evaluating `formatBytes` at `1048576` bytes with the default of two
decimal places.  The code returns `"1 MB"`, not the `"1.00 MB"` stated by
the claim and by the JSDoc example of the function itself: `toFixed(2)` produces
`"1.00"`, but the subsequent `parseFloat` re-parses it to the number `1`,
whose template-literal image drops the fixed decimals. -/
theorem formatBytes_mib_prints_1_MB :
    formatBytes 1048576 2 = "1 MB" ∧ formatBytes 1048576 2 ≠ "1.00 MB" := by
  constructor <;> decide

/-- C6: when the underlying platform formatting call throws, each of
`formatDate`, `formatDateTime` and `formatTime` catches the exception,
returns the default string representation of the input date, and logs one
diagnostic message carrying the namespaced `[AckerJS Format]` prefix. -/
theorem format_date_wrappers_catch_log_and_fallback (d : Date) (e : String) :
    ((formatDate d (.error e)).1 = d.toStringJS
      ∧ ∃ m, (formatDate d (.error e)).2 = [.log m] ∧ ∃ tail, m = "[AckerJS Format]" ++ tail)
    ∧ ((formatDateTime d (.error e)).1 = d.toStringJS
      ∧ ∃ m, (formatDateTime d (.error e)).2 = [.log m]
          ∧ ∃ tail, m = "[AckerJS Format]" ++ tail)
    ∧ ((formatTime d (.error e)).1 = d.toStringJS
      ∧ ∃ m, (formatTime d (.error e)).2 = [.log m]
          ∧ ∃ tail, m = "[AckerJS Format]" ++ tail) := by
  refine ⟨⟨rfl, _, rfl, " Error formatting date: " ++ e, ?_⟩,
    ⟨rfl, _, rfl, " Error formatting date time: " ++ e, ?_⟩,
    ⟨rfl, _, rfl, " Error formatting time: " ++ e, ?_⟩⟩ <;>
    rw [← String.append_assoc] <;> rfl

end Format

end AckerJS

namespace AckerJS

namespace HTTP

theorem jsOrStr_ne_empty (a : Option String) (b : String) (hb : b ≠ "") :
    jsOrStr a b ≠ "" := by
  unfold jsOrStr
  rcases a with _ | s
  · exact hb
  · by_cases hs : s = "" <;> simp [hs, hb]

theorem defaultErrMsg_ne_empty (st : ℕ) (stext : String) :
    ("HTTP " ++ toString st ++ ": " ++ stext) ≠ "" := by
  intro hemp
  have h2 := congrArg String.length hemp
  simp [String.length_append] at h2
  exact absurd h2.1.1.1 (by decide)

theorem responseErrorMessage_ne_empty {α : Type} (response : Response α) :
    responseErrorMessage response ≠ "" := by
  have hd := defaultErrMsg_ne_empty response.status response.statusText
  unfold responseErrorMessage
  repeat' split
  all_goals
    first
      | exact hd
      | assumption
      | exact jsOrStr_ne_empty _ _ (jsOrStr_ne_empty _ _ hd)

theorem handleResponse_of_not_ok {α : Type} (response : Response α)
    (hok : response.ok = false) :
    handleResponse response
      = .error
          (HTTPError.make (responseErrorMessage response) response.status
            response.statusText response.url) := by
  unfold handleResponse
  rw [hok]
  rfl

theorem countFetchCalls_one (url : String) :
    countFetchCalls [Event.fetchCall url] = 1 := by
  simp [countFetchCalls, Event.isFetchCall]

theorem countFetchCalls_one_log (url m : String) :
    countFetchCalls [Event.fetchCall url, Event.log m] = 1 := by
  simp [countFetchCalls, Event.isFetchCall]

theorem fetchJSON_single_fetch {α : Type} (url : String) (options : RequestOptions)
    (env : RequestOptions → FetchOutcome α) :
    countFetchCalls (fetchJSON url options env).2 = 1 := by
  unfold fetchJSON
  split
  · exact countFetchCalls_one_log url _
  · split
    · exact countFetchCalls_one url
    · split
      · exact countFetchCalls_one url
      · split
        · exact countFetchCalls_one url
        · exact countFetchCalls_one_log url _

/-- C7: for every invocation of `fetchJSON` and of each wrapper that
delegates to it (`get`, `post`, `put`, `patch`, `del`, `postJSON`,
`putJSON`, `patchJSON`, `deleteJSON`), the event trace records exactly one
invocation of the platform fetch function, whatever the platform does:
the request is never retried, so a single call completes or fails exactly
once. -/
theorem fetch_invoked_exactly_once {α : Type} (url data : String)
    (options : RequestOptions) (env : RequestOptions → FetchOutcome α) :
    countFetchCalls (fetchJSON url options env).2 = 1
    ∧ countFetchCalls (get url options env).2 = 1
    ∧ countFetchCalls (post url data options env).2 = 1
    ∧ countFetchCalls (put url data options env).2 = 1
    ∧ countFetchCalls (patch url data options env).2 = 1
    ∧ countFetchCalls (del url options env).2 = 1
    ∧ countFetchCalls (postJSON url data options env).2 = 1
    ∧ countFetchCalls (putJSON url data options env).2 = 1
    ∧ countFetchCalls (patchJSON url data options env).2 = 1
    ∧ countFetchCalls (deleteJSON url options env).2 = 1 :=
  ⟨fetchJSON_single_fetch url _ env, fetchJSON_single_fetch url _ env,
   fetchJSON_single_fetch url _ env, fetchJSON_single_fetch url _ env,
   fetchJSON_single_fetch url _ env, fetchJSON_single_fetch url _ env,
   fetchJSON_single_fetch url _ env, fetchJSON_single_fetch url _ env,
   fetchJSON_single_fetch url _ env, fetchJSON_single_fetch url _ env⟩

/-- C3: for every response whose `ok` flag is false, `handleResponse`
throws an `HTTPError` carrying a non-empty human-readable message, the
numeric status code of the response, its status text and the request URL (and
`fetchJSON` surfaces that very error unchanged); for every response whose
`ok` flag is true, `handleResponse` returns without constructing or
throwing any `HTTPError`. -/
theorem handleResponse_httpError_iff_not_ok {α : Type} (response : Response α)
    (url : String) (options : RequestOptions) :
    (response.ok = false →
      ∃ e : HTTPError,
        handleResponse response = .error e
          ∧ e.message ≠ "" ∧ e.status = response.status
          ∧ e.statusText = response.statusText ∧ e.url = response.url
          ∧ e.name = "HTTPError"
          ∧ (fetchJSON url options (fun _o => .success response)).1 = .error (.http e))
    ∧ (response.ok = true → handleResponse response = .ok ()) := by
  constructor
  · intro hok
    refine ⟨_, handleResponse_of_not_ok response hok,
      responseErrorMessage_ne_empty response, rfl, rfl, rfl, rfl, ?_⟩
    simp only [fetchJSON]
    rw [handleResponse_of_not_ok response hok]
  · intro hok
    unfold handleResponse
    rw [hok]
    rfl

/-- Witness for C3 at the two sample responses. -/
theorem handleResponse_httpError_iff_not_ok_witness :
    (sampleBadResponse.ok = false
      ∧ ∃ e : HTTPError,
          handleResponse sampleBadResponse = .error e
            ∧ e.message ≠ "" ∧ e.status = sampleBadResponse.status
            ∧ e.statusText = sampleBadResponse.statusText ∧ e.url = sampleBadResponse.url
            ∧ e.name = "HTTPError"
            ∧ (fetchJSON "https://api.example.com/users" {}
                  (fun _o => .success sampleBadResponse)).1 = .error (.http e))
    ∧ (sampleOkResponse.ok = true ∧ handleResponse sampleOkResponse = .ok ()) :=
  ⟨⟨rfl,
    (handleResponse_httpError_iff_not_ok sampleBadResponse "https://api.example.com/users"
        {}).1 rfl⟩,
   ⟨rfl,
    (handleResponse_httpError_iff_not_ok sampleOkResponse "https://api.example.com/users"
        {}).2 rfl⟩⟩

/-- C4: every error surfaced by `fetchJSON` falls into exactly two
classes: an `HTTPError` produced by `handleResponse` for a non-ok
response, re-thrown unchanged, or a plain `Error` whose message augments
the message of the original platform exception with the request URL, logged
with the namespaced `[AckerJS HTTP]` prefix. -/
theorem fetchJSON_error_dichotomy {α : Type} (url : String) (options : RequestOptions)
    (env : RequestOptions → FetchOutcome α) (e : FetchErr)
    (h : (fetchJSON url options env).1 = .error e) :
    (∃ (he : HTTPError) (response : Response α),
        env (fetchJSONOptions options) = .success response
          ∧ handleResponse response = .error he ∧ e = .http he)
    ∨ (∃ m, e = .plain ("Failed to fetch from " ++ url ++ ": " ++ m)
          ∧ Event.log ("[AckerJS HTTP] Fetch error: " ++ m)
              ∈ (fetchJSON url options env).2) := by
  unfold fetchJSON at h ⊢
  split at h
  next msg heq =>
    simp only [Except.error.injEq] at h
    right
    refine ⟨msg, h.symm, ?_⟩
    simp
  next response heq =>
    split at h
    next he heq2 =>
      simp only [Except.error.injEq] at h
      exact .inl ⟨he, response, heq, heq2, h.symm⟩
    next heq2 =>
      split at h
      next h204 => simp at h
      next h204 =>
        split at h
        next a heq3 => simp at h
        next msg heq3 =>
          simp only [Except.error.injEq] at h
          right
          refine ⟨msg, h.symm, ?_⟩
          rw [if_neg h204]
          simp

/-- Witness for C4 at a rejected platform fetch. -/
theorem fetchJSON_error_dichotomy_witness :
    ((fetchJSON (α := Unit) "https://api.example.com/users" {}
        (fun _o => .failure "network down")).1
      = .error (.plain "Failed to fetch from https://api.example.com/users: network down"))
    ∧ ((∃ (he : HTTPError) (response : Response Unit),
          (FetchOutcome.failure "network down" : FetchOutcome Unit) = .success response
            ∧ handleResponse response = .error he
            ∧ (FetchErr.plain
                  "Failed to fetch from https://api.example.com/users: network down")
                = .http he)
      ∨ (∃ m,
          (FetchErr.plain
              "Failed to fetch from https://api.example.com/users: network down")
            = .plain ("Failed to fetch from " ++ "https://api.example.com/users" ++ ": " ++ m)
          ∧ Event.log ("[AckerJS HTTP] Fetch error: " ++ m)
              ∈ (fetchJSON (α := Unit) "https://api.example.com/users" {}
                  (fun _o => .failure "network down")).2)) :=
  ⟨rfl,
   fetchJSON_error_dichotomy "https://api.example.com/users" {}
     (fun _o => .failure "network down")
     (.plain "Failed to fetch from https://api.example.com/users: network down") rfl⟩

/-- C5: for an input string the platform `URL` constructor rejects,
`parseURL` catches the exception, returns the empty object (the empty
association list, a safe default) instead of throwing, and logs one
diagnostic message carrying the namespaced `[AckerJS HTTP]` prefix. -/
theorem parseURL_invalid_returns_empty_object (url : String) :
    (parseURL url none).1 = []
      ∧ ∃ m, (parseURL url none).2 = [.log m]
          ∧ ∃ tail, m = "[AckerJS HTTP]" ++ tail := by
  refine ⟨rfl, _, rfl, " Invalid URL for parsing: " ++ url, ?_⟩
  rw [← String.append_assoc]
  rfl

/-- C10 counterexample: for the parameter object `{k: [null]}`, `buildURL`
appends the pair `k=null` — the string form of the `null` array element —
to the query, so a null value does appear in the query string of the
resulting URL, contrary to the final clause of the claim. -/
theorem buildURL_array_null_element_in_query :
    (buildURL ⟨"https://api.example.com/search", []⟩ [("k", .vArr [.vNull])]).searchParams
        = [("k", "null")]
    ∧ jsString .vNull = "null"
    ∧ (buildURL ⟨"https://api.example.com/search", []⟩
          [("k", .vArr [.vNull])]).toStringJS
        = "https://api.example.com/search?k=null" :=
  ⟨rfl, rfl, rfl⟩

/-- The parameter loop realises exactly the spec-side description of the
produced pairs, appended after the accumulator. -/
theorem appendParams_eq_append_spec (params : List (String × JSValue)) :
    ∀ init : List (String × String),
      appendParams params init = init ++ specQueryPairs params := by
  induction params with
  | nil => intro init; simp [appendParams, specQueryPairs]
  | cons kv rest ih =>
      intro init
      obtain ⟨k, v⟩ := kv
      cases v <;>
        simp [appendParams, specQueryPairs, ih, List.append_assoc]

/-- C10 (amended): `buildURL` extends the query of the base URL by exactly the
pairs of `specQueryPairs`: entries whose value is `null` or `undefined`
are omitted, each element of an array-valued entry becomes a separate
repeated pair under the same key (elements — including `null` and
`undefined` ones — stringified), and every other value contributes its
string form. -/
theorem buildURL_searchParams_eq_spec (baseURL : URLModel)
    (params : List (String × JSValue)) :
    (buildURL baseURL params).searchParams
      = baseURL.searchParams ++ specQueryPairs params :=
  appendParams_eq_append_spec params baseURL.searchParams

end HTTP

namespace DOM

/-- C8 counterexample: a delivered attribute change whose old and new
values are equal (as happens when `setAttribute` writes the current value
again) does not re-invoke the render callback: the instance is unchanged
and the render count is zero. -/
theorem attributeChangedCallback_equal_values_no_render :
    attributeChangedCallback (fun _props => "<p>rendered</p>") ⟨[("title", "hi")], "old"⟩
        "title" (some "hi") (some "hi")
      = (⟨[("title", "hi")], "old"⟩, 0) := rfl

/-- C8 (amended): `attributeChangedCallback` re-invokes the render
callback exactly when the delivered old and new values differ: on a
differing pair it performs one render (recomputing the content from the
props), and on an equal pair it performs none. -/
theorem attributeChangedCallback_renders_iff_changed
    (renderFn : List (String × String) → String) (inst : ComponentInst)
    (nm : String) (oldValue newValue : Option String) :
    (oldValue ≠ newValue →
      attributeChangedCallback renderFn inst nm oldValue newValue
        = (render renderFn inst, 1))
    ∧ (oldValue = newValue →
      attributeChangedCallback renderFn inst nm oldValue newValue = (inst, 0)) := by
  constructor <;> intro h <;> simp [attributeChangedCallback, h]

/-- Witness for amended C8 at concrete attribute values. -/
theorem attributeChangedCallback_renders_iff_changed_witness :
    ((some "a" : Option String) ≠ some "b"
      ∧ attributeChangedCallback (fun _props => "R") ⟨[], ""⟩ "x" (some "a") (some "b")
          = (render (fun _props => "R") ⟨[], ""⟩, 1))
    ∧ ((some "c" : Option String) = some "c"
      ∧ attributeChangedCallback (fun _props => "R") ⟨[], ""⟩ "x" (some "c") (some "c")
          = (⟨[], ""⟩, 0)) :=
  ⟨⟨by decide, (attributeChangedCallback_renders_iff_changed _ _ _ _ _).1 (by decide)⟩,
   ⟨rfl, (attributeChangedCallback_renders_iff_changed _ _ _ _ _).2 rfl⟩⟩

end DOM

end AckerJS
